import Mathlib

/-!
Shallow embedding of `gaiaclient.py` (jotautomation/gaiapythonclient), the
client used to synchronise with a Gaia test machine.  Pure functions of the
source become Lean functions; the mutable client state touched by the two
background listeners (the machine-state signals and the application wait
list) becomes explicit state passing; Python exceptions become `Except`.
-/

set_option autoImplicit false

namespace Gaia

/-- A Python runtime value as it appears in the wait engine: either a JSON
string (the `value` of an application-state message) or a list of strings
(the `states` list stored in a wait-list entry).  Python `==` between values
of different types is `False`; deriving `DecidableEq` and comparing with `==`
reproduces exactly that: values built with different constructors are never
equal. -/
inductive PyVal where
  | str (s : String)
  | list (xs : List String)
  deriving DecidableEq, Repr

/-- Python `dict` modelled as an association list in insertion order:
assigning to an existing key updates its binding in place, assigning to a
fresh key appends it at the end (CPython insertion-order semantics). -/
def dictInsert {V : Type} : List (String × V) → String → V → List (String × V)
  | [], k, v => [(k, v)]
  | (k', v') :: d, k, v =>
      if k' = k then (k, v) :: d else (k', v') :: dictInsert d k v

/-- Python `dict` read access: the binding of `k`, if any. -/
def dictLookup {V : Type} (d : List (String × V)) (k : String) : Option V :=
  (d.find? (fun p => p.1 == k)).map (fun p => p.2)

/-- Python `dict.update`: fold the right-hand bindings into the dictionary,
later bindings overwriting earlier ones. -/
def dictUpdate {V : Type} (d kvs : List (String × V)) : List (String × V) :=
  kvs.foldl (fun acc kv => dictInsert acc kv.1 kv.2) d

/-- The three `threading.Event` flags owned by the client and driven by the
machine-state listener: `wait_ready_event`, `wait_not_ready_event` and
`wait_closing_event` (`Client.__init__`, gaiaclient.py lines 22-28). -/
structure MachineSignals where
  wait_ready_event : Bool
  wait_not_ready_event : Bool
  wait_closing_event : Bool
  deriving DecidableEq, Repr

/-- `on_status_message` (gaiaclient.py lines 42-62) after a successful JSON
decode: the branching on `message['state']` that recomputes the three
signals.  The callback invocation and the decode failure path (which leaves
every signal untouched) carry no signal change. -/
def on_status_message (sig : MachineSignals) (state : String) : MachineSignals :=
  let sig1 :=
    if state = "Ready" then
      { sig with wait_ready_event := true, wait_not_ready_event := false }
    else
      { sig with wait_ready_event := false, wait_not_ready_event := true }
  if state = "Closing" ∨ state = "Ready" then
    { sig1 with wait_closing_event := true }
  else
    { sig1 with wait_closing_event := false }

/-- The pair handed back by `app_wait_event`: the `threading.Event` flag
(set or not) together with the contents of the `queue.Queue` of resolved
states.  The caller keeps this handle even after the entry leaves the wait
list, so handles are stored separately from the pending list. -/
structure Handle where
  wait_event : Bool
  resolved_state : List String
  deriving DecidableEq, Repr

/-- One dictionary appended to `self.app_wait_list` (gaiaclient.py lines
174-181): the application name, the Python *list* of acceptable states
(field `'state'`), and its event/queue pair, referenced here by the index
`hid` of the handle it shares with the caller. -/
structure WaitEntry where
  hid : Nat
  name : String
  state : PyVal
  deriving DecidableEq, Repr

/-- The mutable state of the application wait engine: every handle ever
created (index = creation order) and the pending `app_wait_list`. -/
structure EngineState where
  handles : List Handle
  app_wait_list : List WaitEntry
  deriving DecidableEq, Repr

/-- The `states` list built by `app_wait_event` (gaiaclient.py lines
163-167): `states = [state]`, then `states.extend(['error', 'Error',
'ErrorState'])` when `stop_wait_on_error` is truthy. -/
def appStatesList (state : String) (stop_wait_on_error : Bool) : List String :=
  [state] ++ (if stop_wait_on_error then ["error", "Error", "ErrorState"] else [])

/-- `app_wait_event` (gaiaclient.py lines 158-183).  `current_state` is the
value read from `self.applications[name]['properties']['state']`.  If it is
already in `states` (`in`, list membership) the queue receives it and the
event is set with no registration; otherwise a new entry joins
`app_wait_list` under the lock.  Returns the new engine state and the index
of the freshly created handle. -/
def app_wait_event (st : EngineState) (name state : String) (stop_wait_on_error : Bool)
    (current_state : String) : EngineState × Nat :=
  let states := appStatesList state stop_wait_on_error
  let hid := st.handles.length
  if states.contains current_state then
    ({ st with
        handles := st.handles ++ [{ wait_event := true, resolved_state := [current_state] }] },
      hid)
  else
    ({ handles := st.handles ++ [{ wait_event := false, resolved_state := [] }],
       app_wait_list := st.app_wait_list
         ++ [{ hid := hid, name := name, state := PyVal.list states }] },
      hid)

/-- The condition of gaiaclient.py line 80, exactly as written:
`app['name'] == message['name'] and app['state'] == message['value']`.
`app['state']` is the Python list of acceptable states while
`message['value']` is a string, so the second conjunct compares a list to a
string with Python `==`. -/
def appMatches (e : WaitEntry) (msgName msgValue : String) : Bool :=
  e.name == msgName && e.state == PyVal.str msgValue

/-- `app['resolved_state'].put(message['value'])` followed by
`app['wait_event'].set()` on the handle with index `hid`. -/
def resolveHandle (hs : List Handle) (hid : Nat) (v : String) : List Handle :=
  hs.mapIdx (fun i h =>
    if i = hid then { wait_event := true, resolved_state := h.resolved_state ++ [v] } else h)

/-- `on_app_message` (gaiaclient.py lines 72-93) after a successful JSON
decode: under the lock, every entry satisfying the line-80 condition has its
queue fed and its event set and is collected in `remove_these`; afterwards
the collected entries are removed from `app_wait_list` in one batch. -/
def on_app_message (st : EngineState) (msgName msgValue : String) : EngineState :=
  let remove_these := st.app_wait_list.filter (fun e => appMatches e msgName msgValue)
  { handles := remove_these.foldl (fun hs e => resolveHandle hs e.hid msgValue) st.handles,
    app_wait_list := st.app_wait_list.filter (fun e => !(appMatches e msgName msgValue)) }

/-- The exception taxonomy of gaiaclient.py lines 306-322 that
`wait_app_state` can raise, each carrying its formatted message. -/
inductive GaiaError where
  | timeoutError (msg : String)
  | applicationError (msg : String)
  deriving DecidableEq, Repr

/-- The ASCII single-quote character used by the format strings of
gaiaclient.py lines 202 and 213. -/
def quoteChar : String := String.singleton (Char.ofNat 39)

/-- The `TimeoutError` message of gaiaclient.py lines 201-205:
`"Timeout while waiting for the state '{}' for the application '{}'"`
formatted with `state` and `name`. -/
def timeoutMessage (state name : String) : String :=
  "Timeout while waiting for the state " ++ quoteChar ++ state ++ quoteChar
    ++ " for the application " ++ quoteChar ++ name ++ quoteChar

/-- The `ApplicationError` message of gaiaclient.py lines 212-216:
`"The application '{}' waiting for the state '{}' went to state '{}'"`
formatted with `name`, `state` and `current_state`. -/
def applicationErrorMessage (name state current_state : String) : String :=
  "The application " ++ quoteChar ++ name ++ quoteChar ++ " waiting for the state "
    ++ quoteChar ++ state ++ quoteChar ++ " went to state "
    ++ quoteChar ++ current_state ++ quoteChar

/-- `wait_app_state` (gaiaclient.py lines 185-216) after the registration
step: `event_fired` is the boolean returned by `wait_event.wait(timeout)`
and `resolved_state` the queue contents at that moment.  `not event_fired`
raises `TimeoutError`; an empty queue returns; otherwise the queue head is
compared against the wanted state. -/
def wait_app_state (name state : String) (event_fired : Bool)
    (resolved_state : List String) : Except GaiaError Unit :=
  if !event_fired then
    Except.error (GaiaError.timeoutError (timeoutMessage state name))
  else
    match resolved_state with
    | [] => Except.ok ()
    | current_state :: _ =>
        if current_state ≠ state then
          Except.error
            (GaiaError.applicationError (applicationErrorMessage name state current_state))
        else
          Except.ok ()

/-- One entry of an action's `fields` list (gaiaclient.py lines 278-280):
a field name, optionally carrying a server-provided `value`. -/
structure FieldDoc where
  name : String
  value : Option String
  deriving DecidableEq, Repr

/-- One Siren action document as consumed by `_get_fields` (gaiaclient.py
lines 270-303): `name`, `method`, `href`, content `type` and the field
list. -/
structure ActionDoc where
  name : String
  method : String
  href : String
  type : String
  fields : List FieldDoc
  deriving DecidableEq, Repr

/-- The detail document fetched from an entity's `href` (gaiaclient.py
lines 257-266): its `actions` and, when the key is present, its
`blocked_actions`. -/
structure EntityDetails where
  actions : List ActionDoc
  blocked_actions : Option (List ActionDoc)
  deriving DecidableEq, Repr

/-- The `properties` dictionary of an application entity: `name`, the
`alias` key (field `aliasName` here, `alias` being reserved in Lean; the
empty string models a falsy alias) and `state`. -/
structure Properties where
  name : String
  aliasName : String
  state : String
  deriving DecidableEq, Repr

/-- One entry of the `entities` array of `/api/applications`: its
properties and the `href` of its detail document. -/
structure Entity where
  props : Properties
  href : String
  deriving DecidableEq, Repr

/-- The Python exceptions surfacing from the resolver and from action
invocation: the unbound-local error raised when `entity_details` is used
after the `except` branch of `_get_actions`, and the `requests.HTTPError`
raised by `raise_for_status`. -/
inductive PyError where
  | nameError
  | httpError (status : Nat)
  deriving DecidableEq, Repr

/-- The static-field dictionary built by `post_func` (gaiaclient.py lines
277-280): every field of the action carrying a `value` key contributes a
binding; fields without `value` are skipped. -/
def staticFields (action : ActionDoc) : List (String × String) :=
  action.fields.foldl
    (fun fields f =>
      match f.value with
      | some v => dictInsert fields f.name v
      | none => fields)
    []

/-- The request body assembled by `post_func` (gaiaclient.py lines 277-283):
the static fields, then `fields.update(kwargs)` with the caller-supplied
keyword arguments. -/
def post_fields (action : ActionDoc) (kwargs : List (String × String)) :
    List (String × String) :=
  dictUpdate (staticFields action) kwargs

/-- An outbound HTTP request as issued by the synthesized action
functions: method, target URL, the `Content-type` header value, and the
JSON body (empty for GET). -/
structure HttpRequest where
  method : String
  url : String
  contentType : String
  body : List (String × String)
  deriving DecidableEq, Repr

/-- An HTTP response as seen by the action functions. -/
structure HttpResponse where
  status : Nat
  text : String
  deriving DecidableEq, Repr

/-- `requests.Response.raise_for_status`: raises `HTTPError` for a 4xx or
5xx status code and does nothing otherwise. -/
def raise_for_status (status : Nat) : Except PyError Unit :=
  if 400 ≤ status ∧ status < 600 then Except.error (PyError.httpError status)
  else Except.ok ()

/-- `post_func` (gaiaclient.py lines 273-290): the POST request it issues
(body = static fields updated with `kwargs`, header from the declared
content type) paired with its outcome given the transport's response —
`raise_for_status`, then an implicit `return None`. -/
def post_func (action : ActionDoc) (kwargs : List (String × String))
    (response : HttpResponse) : HttpRequest × Except PyError Unit :=
  ({ method := "POST", url := action.href, contentType := action.type,
     body := post_fields action kwargs },
   raise_for_status response.status)

/-- `get_func` (gaiaclient.py lines 294-303): the GET request it issues
paired with its outcome given the transport's response —
`raise_for_status`, then `return request` (the raw response). -/
def get_func (action : ActionDoc) (response : HttpResponse) :
    HttpRequest × Except PyError HttpResponse :=
  ({ method := "GET", url := action.href, contentType := action.type, body := [] },
   (raise_for_status response.status).map (fun _ => response))

/-- The action dictionary built from a successfully fetched detail
document (gaiaclient.py lines 261-266): every entry of `actions`, then —
when the key is present — every entry of `blocked_actions`, keyed by
action name. -/
def buildActions (details : EntityDetails) : List (String × ActionDoc) :=
  let actions := details.actions.foldl (fun acc a => dictInsert acc a.name a) []
  match details.blocked_actions with
  | some blocked => blocked.foldl (fun acc a => dictInsert acc a.name a) actions
  | none => actions

/-- `_get_actions` (gaiaclient.py lines 253-268).  `fetched` is the result
of `self.requests.get(entity['href']).json()`: `none` when the fetch or the
JSON decode raises.  On that failure the `except` branch only prints the
entity and falls through, so the subsequent `entity_details['actions']`
raises `UnboundLocalError` (a `NameError`), modelled as
`PyError.nameError`. -/
def _get_actions (fetched : Option EntityDetails) :
    Except PyError (List (String × ActionDoc)) :=
  match fetched with
  | some details => Except.ok (buildActions details)
  | none => Except.error PyError.nameError

/-- One registry entry: `{'actions': ..., 'properties': entity['properties']}`
(gaiaclient.py lines 114-122). -/
structure AppEntry where
  actions : List (String × ActionDoc)
  properties : Properties
  deriving DecidableEq, Repr

/-- One iteration of the registration loop of `Client.__init__`
(gaiaclient.py lines 111-122): a colliding canonical name with a truthy
alias registers the entity under the alias, a colliding name without alias
registers nothing, a fresh name registers under the canonical name.  In the
two registering branches `self._get_actions(entity)` is called on *this*
entity; an exception escaping it propagates out of `__init__`. -/
def registerEntity (apps : List (String × AppEntry)) (e : Entity)
    (fetch : String → Option EntityDetails) :
    Except PyError (List (String × AppEntry)) :=
  if (dictLookup apps e.props.name).isSome then
    if e.props.aliasName ≠ "" then do
      let acts ← _get_actions (fetch e.href)
      return dictInsert apps e.props.aliasName { actions := acts, properties := e.props }
    else
      return apps
  else do
    let acts ← _get_actions (fetch e.href)
    return dictInsert apps e.props.name { actions := acts, properties := e.props }

/-- The whole registration loop of `Client.__init__` over the entity list
of `/api/applications`, starting from the empty `self._applications`.
Exceptions propagate: the loop aborts at the first failing entity. -/
def buildApplications (entities : List Entity) (fetch : String → Option EntityDetails) :
    Except PyError (List (String × AppEntry)) :=
  entities.foldlM (fun apps e => registerEntity apps e fetch) []

/-! ## Dictionary lemmas -/

theorem dictLookup_nil {V : Type} (key : String) :
    dictLookup ([] : List (String × V)) key = none := rfl

theorem dictLookup_cons {V : Type} (k' : String) (v' : V) (d : List (String × V))
    (key : String) :
    dictLookup ((k', v') :: d) key = if k' = key then some v' else dictLookup d key := by
  by_cases h : k' = key
  · rw [if_pos h]
    unfold dictLookup
    rw [List.find?_cons_of_pos _ (by simp [h])]
    rfl
  · rw [if_neg h]
    unfold dictLookup
    rw [List.find?_cons_of_neg _ (by simp [h])]

theorem dictLookup_dictInsert {V : Type} (d : List (String × V)) (k : String) (v : V)
    (key : String) :
    dictLookup (dictInsert d k v) key = if key = k then some v else dictLookup d key := by
  induction d with
  | nil =>
      by_cases h : key = k
      · simp [dictInsert, dictLookup_cons, h]
      · have h' : ¬ k = key := fun hh => h hh.symm
        simp [dictInsert, dictLookup_cons, h, h']
  | cons p rest ih =>
      obtain ⟨k', v'⟩ := p
      by_cases hk : k' = k
      · subst hk
        simp only [dictInsert, if_pos rfl]
        by_cases h : key = k'
        · simp [dictLookup_cons, h]
        · have h' : ¬ k' = key := fun hh => h hh.symm
          simp [dictLookup_cons, h, h']
      · simp only [dictInsert, if_neg hk]
        by_cases h : k' = key
        · have h' : ¬ key = k := fun hh => hk (h.trans hh)
          simp [dictLookup_cons, h, h']
        · simp [dictLookup_cons, h, ih]

theorem dictLookup_eq_none_of_not_mem {V : Type} (d : List (String × V)) (key : String)
    (h : key ∉ d.map Prod.fst) : dictLookup d key = none := by
  induction d with
  | nil => rfl
  | cons p rest ih =>
      obtain ⟨k', v'⟩ := p
      simp only [List.map_cons, List.mem_cons, not_or] at h
      have h1 : ¬ k' = key := fun hh => h.1 hh.symm
      rw [dictLookup_cons, if_neg h1]
      exact ih h.2

theorem dictLookup_dictUpdate {V : Type} (kvs : List (String × V)) (d : List (String × V))
    (key : String) (h : (kvs.map Prod.fst).Nodup) :
    dictLookup (dictUpdate d kvs) key = (dictLookup kvs key).or (dictLookup d key) := by
  induction kvs generalizing d with
  | nil => simp [dictUpdate, dictLookup, List.find?]
  | cons kv rest ih =>
      obtain ⟨k, v⟩ := kv
      simp only [List.map_cons, List.nodup_cons] at h
      have step : dictUpdate d ((k, v) :: rest) = dictUpdate (dictInsert d k v) rest := rfl
      rw [step, ih (dictInsert d k v) h.2, dictLookup_cons]
      by_cases hk : k = key
      · subst hk
        rw [dictLookup_eq_none_of_not_mem rest k h.1, if_pos rfl,
          dictLookup_dictInsert, if_pos rfl]
        simp
      · rw [if_neg hk, dictLookup_dictInsert, if_neg (fun hh => hk hh.symm)]

/-! ## Static-field extraction lemmas -/

theorem staticFoldl_isSome (fs : List FieldDoc) (acc : List (String × String)) (key : String) :
    (dictLookup
        (fs.foldl
          (fun fields f =>
            match f.value with
            | some v => dictInsert fields f.name v
            | none => fields)
          acc)
        key).isSome
      ↔ (dictLookup acc key).isSome ∨ ∃ f ∈ fs, f.name = key ∧ f.value.isSome := by
  induction fs generalizing acc with
  | nil => simp
  | cons f rest ih =>
      obtain ⟨fname, fval⟩ := f
      cases fval with
      | none =>
          rw [List.foldl_cons]
          simp only [ih]
          simp [List.exists_mem_cons_iff]
      | some v =>
          rw [List.foldl_cons]
          simp only [ih]
          rw [dictLookup_dictInsert]
          by_cases h : key = fname
          · subst h
            simp [List.exists_mem_cons_iff]
          · rw [if_neg h]
            have h' : ¬ fname = key := fun hh => h hh.symm
            simp [List.exists_mem_cons_iff, h']

/-- The static-field dictionary binds a key exactly when some field of the
action carries that name together with a `value`. -/
theorem staticFields_isSome (action : ActionDoc) (key : String) :
    (dictLookup (staticFields action) key).isSome
      ↔ ∃ f ∈ action.fields, f.name = key ∧ f.value.isSome := by
  unfold staticFields
  rw [staticFoldl_isSome]
  simp [dictLookup]

/-! ## Wait-engine lemmas -/

/-- Every entry of the pending wait list stores a Python *list* in its
`'state'` field — exactly what `app_wait_event` puts there. -/
def ListStates (st : EngineState) : Prop :=
  ∀ e ∈ st.app_wait_list, ∃ xs, e.state = PyVal.list xs

theorem appMatches_eq_false (e : WaitEntry) (n v : String)
    (h : ∃ xs, e.state = PyVal.list xs) : appMatches e n v = false := by
  obtain ⟨xs, hx⟩ := h
  simp [appMatches, hx]

/-- The line-80 condition never fires on entries registered by
`app_wait_event`: their `'state'` field is a list, the message value a
string, and Python `==` across types is false.  Hence `on_app_message`
leaves such an engine state completely unchanged. -/
theorem on_app_message_fix (st : EngineState) (n v : String) (h : ListStates st) :
    on_app_message st n v = st := by
  have hall : ∀ e ∈ st.app_wait_list, appMatches e n v = false :=
    fun e he => appMatches_eq_false e n v (h e he)
  unfold on_app_message
  have h1 : st.app_wait_list.filter (fun e => appMatches e n v) = [] := by
    rw [List.filter_eq_nil_iff]
    intro e he
    simp [hall e he]
  have h2 : st.app_wait_list.filter (fun e => !(appMatches e n v)) = st.app_wait_list := by
    rw [List.filter_eq_self]
    intro e he
    simp [hall e he]
  rw [h1, h2]
  rfl

/-- The engine states that can actually arise at runtime: starting from the
freshly connected client (empty wait list, no handles), any interleaving of
`app_wait_event` registrations and `on_app_message` deliveries. -/
inductive Reachable : EngineState → Prop where
  | init : Reachable { handles := [], app_wait_list := [] }
  | register (st : EngineState) (name state : String) (stop_wait_on_error : Bool)
      (current_state : String) : Reachable st →
      Reachable (app_wait_event st name state stop_wait_on_error current_state).1
  | message (st : EngineState) (msgName msgValue : String) : Reachable st →
      Reachable (on_app_message st msgName msgValue)

/-- Inductive invariant of the wait engine: pending entries carry list-typed
`'state'` fields, and a set completion event always comes with a singleton
resolved-state queue. -/
theorem reachable_invariant (st : EngineState) (h : Reachable st) :
    ListStates st
      ∧ ∀ hd ∈ st.handles, hd.wait_event = true → ∃ v, hd.resolved_state = [v] := by
  induction h with
  | init =>
      constructor
      · intro e he
        simp at he
      · intro hd hmem
        simp at hmem
  | register st name state stop cur _ ih =>
      obtain ⟨hls, hinv⟩ := ih
      unfold app_wait_event
      by_cases hc : (appStatesList state stop).contains cur
      · rw [if_pos hc]
        refine ⟨hls, ?_⟩
        intro hd hmem hev
        rcases List.mem_append.mp hmem with hold | hnew
        · exact hinv hd hold hev
        · rw [List.mem_singleton.mp hnew]
          exact ⟨cur, rfl⟩
      · rw [if_neg hc]
        constructor
        · intro e he
          rcases List.mem_append.mp he with hold | hnew
          · exact hls e hold
          · rw [List.mem_singleton.mp hnew]
            exact ⟨appStatesList state stop, rfl⟩
        · intro hd hmem hev
          rcases List.mem_append.mp hmem with hold | hnew
          · exact hinv hd hold hev
          · rw [List.mem_singleton.mp hnew] at hev
            simp at hev
  | message st n v _ ih =>
      rw [on_app_message_fix st n v ih.1]
      exact ih

/-- Two waiters for the same application and target state (`app1`,
`Running`, bail-on-error), both registered while the application reports an
unrelated snapshot state. -/
def twoWaiters : EngineState :=
  (app_wait_event
    (app_wait_event { handles := [], app_wait_list := [] } "app1" "Running" true "Idle").1
    "app1" "Running" true "Idle").1

/-- One waiter for (`app1`, `Running`) and one for (`app2`, `Loading`),
registered while both applications report an unrelated snapshot state. -/
def mixedWaiters : EngineState :=
  (app_wait_event
    (app_wait_event { handles := [], app_wait_list := [] } "app1" "Running" true "Idle").1
    "app2" "Loading" false "Idle").1

/-! ## Claim theorems -/

/-- C1: the claim says an application-state message `{name, value}` resolves
every pending waiter whose application name matches and whose
acceptable-states set contains `value`.  The code does not: line 80 compares
the acceptable-states *list* `app['state']` itself against the string
`message['value']` with `==`, which never holds, so the message
`{name: app1, value: Running}` resolves neither of two waiters registered
for exactly that application and state — no queue write, no event set, no
removal.  This contradicts the membership test (`in`) the snapshot path of
`app_wait_event` applies to the same list and the documented contract of
`wait_app_state`, so the claim states the intent and the code is the slip. -/
theorem c1_matching_message_resolves_nothing :
    on_app_message twoWaiters "app1" "Running" = twoWaiters
    ∧ twoWaiters.app_wait_list.length = 2
    ∧ twoWaiters.app_wait_list.all
        (fun e => e.name == "app1"
          && e.state == PyVal.list ["Running", "error", "Error", "ErrorState"])
    ∧ twoWaiters.handles.all (fun hd => hd.wait_event == false) :=
  ⟨rfl, rfl, rfl, rfl⟩

/-- C10: the claim says a message removes exactly its matched entries and
leaves the rest untouched.  The frame half is true, but no entry is ever
matched: delivering `{name: app1, value: Running}` to a wait list holding a
waiter for exactly (`app1`, `Running`) and an unrelated waiter for
(`app2`, `Loading`) removes nothing and modifies nothing — the claim-matched
entry stays pending with its event unset and queue empty, exactly like the
non-matching one, and a message with no pending waiters is likewise a
no-op. -/
theorem c10_message_removes_no_entry :
    on_app_message mixedWaiters "app1" "Running" = mixedWaiters
    ∧ mixedWaiters.app_wait_list.map (fun e => e.name) = ["app1", "app2"]
    ∧ mixedWaiters.handles.all
        (fun hd => hd.wait_event == false && hd.resolved_state.isEmpty)
    ∧ on_app_message { handles := [], app_wait_list := [] } "app1" "Running"
        = { handles := [], app_wait_list := [] } :=
  ⟨rfl, rfl, rfl, rfl⟩

/-- C9: in every reachable engine state, a handle whose completion event is
set holds exactly one resolved state in its queue — both setters
(`app_wait_event`'s snapshot path and `on_app_message`) perform the
`put` together with the `set`.  Consequently `resolved_state.empty()` is
false whenever `wait_app_state` gets past the event wait, so its
empty-queue early-return branch can never be taken. -/
theorem c9_set_event_implies_nonempty_queue (st : EngineState) (h : Reachable st)
    (hd : Handle) (hmem : hd ∈ st.handles) (hev : hd.wait_event = true) :
    (∃ v, hd.resolved_state = [v]) ∧ hd.resolved_state.isEmpty = false := by
  obtain ⟨v, hv⟩ := (reachable_invariant st h).2 hd hmem hev
  refine ⟨⟨v, hv⟩, ?_⟩
  rw [hv]
  rfl

theorem c9_witness :
    (∃ v, (Handle.mk true ["Running"]).resolved_state = [v])
    ∧ (Handle.mk true ["Running"]).resolved_state.isEmpty = false :=
  c9_set_event_implies_nonempty_queue
    (app_wait_event { handles := [], app_wait_list := [] } "app1" "Running" true "Running").1
    (Reachable.register { handles := [], app_wait_list := [] }
      "app1" "Running" true "Running" Reachable.init)
    (Handle.mk true ["Running"]) (by decide) rfl

/-- C3: `app_wait_event(name, state, stop_wait_on_error)` computes the
acceptable states as `[state]`, extended with `error`, `Error`,
`ErrorState` when `stop_wait_on_error` is set; a snapshot state already in
that list fills the queue with the snapshot value and sets the event with
no wait-list registration; otherwise exactly one WaitRequest is appended. -/
theorem c3_app_wait_event_snapshot_or_register (st : EngineState)
    (name state current_state : String) (stop_wait_on_error : Bool) :
    appStatesList state stop_wait_on_error
        = state :: (if stop_wait_on_error then ["error", "Error", "ErrorState"] else [])
    ∧ ((appStatesList state stop_wait_on_error).contains current_state = true →
        (app_wait_event st name state stop_wait_on_error current_state).1.app_wait_list
            = st.app_wait_list
        ∧ (app_wait_event st name state stop_wait_on_error current_state).1.handles
            = st.handles ++ [{ wait_event := true, resolved_state := [current_state] }])
    ∧ ((appStatesList state stop_wait_on_error).contains current_state = false →
        (app_wait_event st name state stop_wait_on_error current_state).1.handles
            = st.handles ++ [{ wait_event := false, resolved_state := [] }]
        ∧ (app_wait_event st name state stop_wait_on_error current_state).1.app_wait_list
            = st.app_wait_list ++ [WaitEntry.mk st.handles.length name
                (PyVal.list (appStatesList state stop_wait_on_error))]) := by
  refine ⟨rfl, ?_, ?_⟩ <;> intro hc <;> unfold app_wait_event <;> simp at hc <;> simp [hc]

theorem c3_witness :
    ((app_wait_event { handles := [], app_wait_list := [] }
        "app1" "Running" true "Running").1.app_wait_list = []
      ∧ (app_wait_event { handles := [], app_wait_list := [] }
          "app1" "Running" true "Running").1.handles
        = [{ wait_event := true, resolved_state := ["Running"] }])
    ∧ ((app_wait_event { handles := [], app_wait_list := [] }
          "app1" "Running" true "Idle").1.handles
        = [{ wait_event := false, resolved_state := [] }]
      ∧ (app_wait_event { handles := [], app_wait_list := [] }
          "app1" "Running" true "Idle").1.app_wait_list
        = [WaitEntry.mk 0 "app1"
            (PyVal.list ["Running", "error", "Error", "ErrorState"])]) :=
  ⟨(c3_app_wait_event_snapshot_or_register { handles := [], app_wait_list := [] }
      "app1" "Running" "Running" true).2.1 (by decide),
   (c3_app_wait_event_snapshot_or_register { handles := [], app_wait_list := [] }
      "app1" "Running" "Idle" true).2.2 (by decide)⟩

/-- C2: `wait_app_state(name, state, timeout)` raises `TimeoutError` when
the completion event never fires, with a message naming both the target
state and the application; when the event fires and the resolved value
differs from the target it raises `ApplicationError` naming the
application, the expected state and the actual value; when the resolved
value equals the target it returns successfully. -/
theorem c2_wait_app_state_outcomes (name state : String) (event_fired : Bool)
    (resolved : List String) :
    (event_fired = false →
      wait_app_state name state event_fired resolved
        = Except.error (GaiaError.timeoutError (timeoutMessage state name)))
    ∧ (∃ a b c, timeoutMessage state name = a ++ state ++ b ++ name ++ c)
    ∧ (∀ current rest, event_fired = true → resolved = current :: rest → current ≠ state →
      wait_app_state name state event_fired resolved
        = Except.error (GaiaError.applicationError (applicationErrorMessage name state current)))
    ∧ (∀ current, ∃ a b c d,
        applicationErrorMessage name state current = a ++ name ++ b ++ state ++ c ++ current ++ d)
    ∧ (∀ rest, event_fired = true → resolved = state :: rest →
      wait_app_state name state event_fired resolved = Except.ok ()) := by
  refine ⟨?_, ?_, ?_, ?_, ?_⟩
  · intro h
    subst h
    rfl
  · refine ⟨"Timeout while waiting for the state " ++ quoteChar,
      quoteChar ++ " for the application " ++ quoteChar, quoteChar, ?_⟩
    simp [timeoutMessage, String.append_assoc]
  · intro current rest hev hres hne
    subst hev
    subst hres
    simp [wait_app_state, hne]
  · intro current
    refine ⟨"The application " ++ quoteChar,
      quoteChar ++ " waiting for the state " ++ quoteChar,
      quoteChar ++ " went to state " ++ quoteChar, quoteChar, ?_⟩
    simp [applicationErrorMessage, String.append_assoc]
  · intro rest hev hres
    subst hev
    subst hres
    simp [wait_app_state]

theorem c2_witness :
    wait_app_state "app1" "Running" false []
        = Except.error (GaiaError.timeoutError (timeoutMessage "Running" "app1"))
    ∧ wait_app_state "app1" "Running" true ["Error"]
        = Except.error
            (GaiaError.applicationError (applicationErrorMessage "app1" "Running" "Error"))
    ∧ wait_app_state "app1" "Running" true ["Running"] = Except.ok () :=
  ⟨(c2_wait_app_state_outcomes "app1" "Running" false []).1 rfl,
   (c2_wait_app_state_outcomes "app1" "Running" true ["Error"]).2.2.1
      "Error" [] rfl rfl (by decide),
   (c2_wait_app_state_outcomes "app1" "Running" true ["Running"]).2.2.2.2 [] rfl rfl⟩

/-- C4: every machine-state message recomputes all three signals:
`state == Ready` sets the ready event and clears the not-ready event, any
other state clears ready and sets not-ready, and independently the
closing event is set exactly when the state is `Closing` or `Ready`. -/
theorem c4_on_status_message_signals (sig : MachineSignals) (s : String) :
    (on_status_message sig s).wait_ready_event = decide (s = "Ready")
    ∧ (on_status_message sig s).wait_not_ready_event = decide (s ≠ "Ready")
    ∧ (on_status_message sig s).wait_closing_event = decide (s = "Closing" ∨ s = "Ready") := by
  unfold on_status_message
  by_cases h1 : s = "Ready"
  · subst h1
    simp
  · by_cases h2 : s = "Closing"
    · subst h2
      simp
    · simp [h1, h2]

/-- C5: the body of a POST action invocation is the static fields (those
fields of the action's field list carrying a `value`; the others are
absent) updated with the caller-supplied keyword values, the caller's value
winning on a key collision. -/
theorem c5_post_body_merge (action : ActionDoc) (kwargs : List (String × String))
    (key : String) (hnodup : (kwargs.map Prod.fst).Nodup) :
    dictLookup (post_fields action kwargs) key
        = (dictLookup kwargs key).or (dictLookup (staticFields action) key)
    ∧ ((dictLookup (staticFields action) key).isSome
        ↔ ∃ f ∈ action.fields, f.name = key ∧ f.value.isSome) :=
  ⟨dictLookup_dictUpdate kwargs (staticFields action) key hnodup,
   staticFields_isSome action key⟩

/-- A POST action carrying the static default `mode = auto` plus one field
without a server-provided value. -/
def modeAction : ActionDoc :=
  { name := "set_mode", method := "POST", href := "/api/applications/app1/set_mode",
    type := "application/json",
    fields := [{ name := "mode", value := some "auto" }, { name := "extra", value := none }] }

theorem c5_witness :
    List.Nodup (List.map Prod.fst [("mode", "manual")])
    ∧ dictLookup (post_fields modeAction [("mode", "manual")]) "mode"
        = (dictLookup [("mode", "manual")] "mode").or (dictLookup (staticFields modeAction) "mode")
    ∧ post_fields modeAction [("mode", "manual")] = [("mode", "manual")] :=
  ⟨by decide,
   (c5_post_body_merge modeAction [("mode", "manual")] "mode" (by decide)).1,
   by decide⟩

/-- C8: a GET action issues a GET to the action's `href` with the declared
content type, fails (via `raise_for_status`, the spec's `ActionError`) on a
4xx/5xx status and returns the raw response otherwise; a POST action issues
a POST with the merged body and declared content type, fails the same way
on a 4xx/5xx status and otherwise returns nothing. -/
theorem c8_action_invocation (action : ActionDoc) (kwargs : List (String × String))
    (response : HttpResponse) :
    (get_func action response).1 = HttpRequest.mk "GET" action.href action.type []
    ∧ (post_func action kwargs response).1
        = HttpRequest.mk "POST" action.href action.type (post_fields action kwargs)
    ∧ (400 ≤ response.status ∧ response.status < 600 →
        (get_func action response).2 = Except.error (PyError.httpError response.status)
        ∧ (post_func action kwargs response).2
            = Except.error (PyError.httpError response.status))
    ∧ (¬ (400 ≤ response.status ∧ response.status < 600) →
        (get_func action response).2 = Except.ok response
        ∧ (post_func action kwargs response).2 = Except.ok ()) := by
  refine ⟨rfl, rfl, ?_, ?_⟩ <;> intro h <;>
    simp [get_func, post_func, raise_for_status, h, Except.map]

/-- A success and a failure response as returned by the transport. -/
def okResponse : HttpResponse := { status := 200, text := "collected" }

def errResponse : HttpResponse := { status := 404, text := "missing" }

theorem c8_witness :
    (get_func modeAction okResponse).2 = Except.ok okResponse
    ∧ (post_func modeAction [] errResponse).2 = Except.error (PyError.httpError 404)
    ∧ (get_func modeAction errResponse).2 = Except.error (PyError.httpError 404) :=
  ⟨((c8_action_invocation modeAction [] okResponse).2.2.2 (by decide)).1,
   ((c8_action_invocation modeAction [] errResponse).2.2.1 (by decide)).2,
   ((c8_action_invocation modeAction [] errResponse).2.2.1 (by decide)).1⟩

/-- An entity whose detail fetch raises, and a healthy entity listed after
it. -/
def badEntity : Entity :=
  { props := { name := "appBad", aliasName := "", state := "Idle" }, href := "hBad" }

def goodEntity : Entity :=
  { props := { name := "appGood", aliasName := "", state := "Idle" }, href := "hGood" }

def startAction : ActionDoc :=
  { name := "start", method := "POST", href := "/api/applications/appGood/start",
    type := "application/json", fields := [] }

/-- Transport for the C6 scenario: the detail document of `goodEntity`
decodes fine, the fetch for `badEntity` raises. -/
def detailFetch : String → Option EntityDetails :=
  fun href =>
    if href == "hGood" then some { actions := [startAction], blocked_actions := none }
    else none

/-- C6: the claim says a failed detail fetch is logged, the entity's action
map is treated as empty and resolution of the remaining entities continues.
The code logs (prints) and then falls through to
`entity_details['actions']` with `entity_details` unbound, raising
`UnboundLocalError`: `_get_actions` yields an error instead of an empty
action map, and since `Client.__init__` calls it outside any handler the
whole registry construction aborts — `appGood`, listed after the failing
entity, is never registered, although the same entity list with the
failing entity absent resolves fine. -/
theorem c6_fetch_failure_aborts_resolution :
    _get_actions none = Except.error PyError.nameError
    ∧ buildApplications [badEntity, goodEntity] detailFetch = Except.error PyError.nameError
    ∧ buildApplications [goodEntity] detailFetch
        = Except.ok [("appGood", AppEntry.mk [("start", startAction)] goodEntity.props)] :=
  ⟨rfl, rfl, rfl⟩

/-- Two entities sharing the canonical name `appA` but resolving to
different action sets; the second carries the alias `appB`. -/
def actionOne : ActionDoc :=
  { name := "actOne", method := "GET", href := "/api/applications/appA/one",
    type := "application/json", fields := [] }

def actionTwo : ActionDoc :=
  { name := "actTwo", method := "GET", href := "/api/applications/appA2/two",
    type := "application/json", fields := [] }

def firstEntity : Entity :=
  { props := { name := "appA", aliasName := "", state := "Idle" }, href := "h1" }

def secondEntity : Entity :=
  { props := { name := "appA", aliasName := "appB", state := "Idle" }, href := "h2" }

def aliasFetch : String → Option EntityDetails :=
  fun href =>
    if href == "h1" then some { actions := [actionOne], blocked_actions := none }
    else if href == "h2" then some { actions := [actionTwo], blocked_actions := none }
    else none

/-- The registry produced from `[firstEntity, secondEntity]`. -/
def collidedRegistry : List (String × AppEntry) :=
  [("appA", AppEntry.mk [("actOne", actionOne)] firstEntity.props),
   ("appB", AppEntry.mk [("actTwo", actionTwo)] secondEntity.props)]

/-- C7 counterexample: the claim says the alias key points at the same
action set as the canonical entry.  The code calls `_get_actions` on the
*colliding* entity when registering the alias, so with two same-named
entities resolving to different action sets the alias entry (`actTwo`)
differs from the canonical entry (`actOne`). -/
theorem c7_counterexample :
    buildApplications [firstEntity, secondEntity] aliasFetch = Except.ok collidedRegistry
    ∧ (dictLookup collidedRegistry "appB").map AppEntry.actions
        = some [("actTwo", actionTwo)]
    ∧ (dictLookup collidedRegistry "appA").map AppEntry.actions
        = some [("actOne", actionOne)]
    ∧ [("actTwo", actionTwo)] ≠ [("actOne", actionOne)] := by
  refine ⟨rfl, rfl, rfl, ?_⟩
  decide

/-- C7 (amended): a fresh canonical name is inserted under that name; a
colliding canonical name with a non-empty alias inserts, under the alias
key, an entry holding the *colliding entity's own* freshly resolved action
map (equal to the canonical entry's only when both entities resolve
identically), and the canonical entry is untouched whenever the alias
differs from the canonical name; a colliding canonical name without an
alias registers nothing. -/
theorem c7_registration_rule (apps : List (String × AppEntry)) (e : Entity)
    (fetch : String → Option EntityDetails) (acts : List (String × ActionDoc))
    (hacts : _get_actions (fetch e.href) = Except.ok acts) :
    (dictLookup apps e.props.name = none →
      registerEntity apps e fetch
          = Except.ok (dictInsert apps e.props.name (AppEntry.mk acts e.props)))
    ∧ ((dictLookup apps e.props.name).isSome → e.props.aliasName ≠ "" →
      registerEntity apps e fetch
          = Except.ok (dictInsert apps e.props.aliasName (AppEntry.mk acts e.props)))
    ∧ (e.props.aliasName ≠ e.props.name →
      dictLookup (dictInsert apps e.props.aliasName (AppEntry.mk acts e.props)) e.props.name
          = dictLookup apps e.props.name)
    ∧ ((dictLookup apps e.props.name).isSome → e.props.aliasName = "" →
      registerEntity apps e fetch = Except.ok apps) := by
  refine ⟨?_, ?_, ?_, ?_⟩
  · intro hnone
    simp [registerEntity, hnone, hacts]
  · intro hsome hal
    simp [registerEntity, hsome, hal, hacts]
  · intro hne
    rw [dictLookup_dictInsert, if_neg (fun hh => hne hh.symm)]
  · intro hsome hal
    simp [registerEntity, hsome, hal, pure, Except.pure]

/-- The registry as it stands when `secondEntity` is processed. -/
def canonicalOnly : List (String × AppEntry) :=
  [("appA", AppEntry.mk [("actOne", actionOne)] firstEntity.props)]

theorem c7_witness :
    registerEntity canonicalOnly secondEntity aliasFetch
        = Except.ok
            (dictInsert canonicalOnly "appB" (AppEntry.mk [("actTwo", actionTwo)] secondEntity.props))
    ∧ dictLookup
          (dictInsert canonicalOnly "appB" (AppEntry.mk [("actTwo", actionTwo)] secondEntity.props))
          "appA"
        = dictLookup canonicalOnly "appA" :=
  ⟨(c7_registration_rule canonicalOnly secondEntity aliasFetch [("actTwo", actionTwo)] rfl).2.1
      (by decide) (by decide),
   (c7_registration_rule canonicalOnly secondEntity aliasFetch [("actTwo", actionTwo)] rfl).2.2.1
      (by decide)⟩

end Gaia
